import Mathlib

/-!
Shallow embedding of the VDEX container parser of vdexExtractor
(src/vdexExtractor/src/vdex.c, vdex.h, vdexExtractor.c).

A mapped file buffer is a `List Nat` of bytes (each byte `< 256` in real
buffers; reads out of range return 0, standing for unspecified memory).
Pointers into the buffer are byte offsets from the start of the mapping.
`u4` arithmetic wraps modulo 2^32; pointer arithmetic does not wrap.
-/

/-- Byte read at index `i`; out-of-range reads give 0. -/
def byteAt (buf : List Nat) (i : Nat) : Nat := buf.getD i 0

/-- Little-endian unaligned `u4` read at byte offset `off`. -/
def readU4 (buf : List Nat) (off : Nat) : Nat :=
  byteAt buf off + 256 * byteAt buf (off + 1) + 65536 * byteAt buf (off + 2) +
    16777216 * byteAt buf (off + 3)

/-- Modulus of `u4` arithmetic. -/
def U4MOD : Nat := 4294967296

/-- `kVdexMagic` from vdex.h: the bytes of the ASCII literal `vdex`. -/
def kVdexMagic : List Nat := [118, 100, 101, 120]

/-- First entry of `kVdexMagicVersions`: the bytes of `006\0`. -/
def kVdexVersion006 : List Nat := [48, 48, 54, 0]

/-- Second entry of `kVdexMagicVersions`: the bytes of `010\0`. -/
def kVdexVersion010 : List Nat := [48, 49, 48, 0]

/-- `kVdexMagicVersions` from vdex.h. -/
def kVdexMagicVersions : List (List Nat) := [kVdexVersion006, kVdexVersion010]

/-- The `magic[4]` field of the packed `vdexHeader` (bytes 0..3). -/
def vdexMagicBytes (buf : List Nat) : List Nat :=
  [byteAt buf 0, byteAt buf 1, byteAt buf 2, byteAt buf 3]

/-- The `version[4]` field of the packed `vdexHeader` (bytes 4..7). -/
def vdexVersionBytes (buf : List Nat) : List Nat :=
  [byteAt buf 4, byteAt buf 5, byteAt buf 6, byteAt buf 7]

/-- The `numberOfDexFiles` field (`u4` at offset 8). -/
def vdexNumberOfDexFiles (buf : List Nat) : Nat := readU4 buf 8

/-- The `dexSize` field (`u4` at offset 12). -/
def vdexDexSize (buf : List Nat) : Nat := readU4 buf 12

/-- The `verifierDepsSize` field (`u4` at offset 16). -/
def vdexVerifierDepsSize (buf : List Nat) : Nat := readU4 buf 16

/-- The `quickeningInfoSize` field (`u4` at offset 20). -/
def vdexQuickeningInfoSize (buf : List Nat) : Nat := readU4 buf 20

/-- `vdex_isMagicValid`: memcmp of the header's magic with `kVdexMagic`. -/
def vdex_isMagicValid (buf : List Nat) : Bool :=
  vdexMagicBytes buf == kVdexMagic

/-- `vdex_isVersionValid`: memcmp of the header's version against every
entry of `kVdexMagicVersions`, true when any matches. -/
def vdex_isVersionValid (buf : List Nat) : Bool :=
  kVdexMagicVersions.any (fun v => vdexVersionBytes buf == v)

/-- `vdex_isValidVdex`: magic valid and version valid. -/
def vdex_isValidVdex (buf : List Nat) : Bool :=
  vdex_isMagicValid buf && vdex_isVersionValid buf

/-- `vdex_hasDexSection`: `dexSize != 0`. -/
def vdex_hasDexSection (buf : List Nat) : Bool :=
  vdexDexSize buf != 0

/-- `vdex_GetSizeOfChecksumsSection`: `sizeof(VdexChecksum) * numberOfDexFiles`
truncated to `u4` (the product is computed in `size_t` and returned as `u4`). -/
def vdex_GetSizeOfChecksumsSection (buf : List Nat) : Nat :=
  (4 * vdexNumberOfDexFiles buf) % U4MOD

/-- `vdex_DexBegin` as a byte offset from the mapping base: 64-bit pointer
arithmetic `cursor + sizeof(vdexHeader) + vdex_GetSizeOfChecksumsSection(cursor)`,
which does not wrap (sizeof(vdexHeader) = 24 for the packed header). -/
def vdex_DexBeginPtr (buf : List Nat) : Nat :=
  24 + vdex_GetSizeOfChecksumsSection buf

/-- `vdex_DexBeginOffset`: the same sum returned as `u4`, so it wraps. -/
def vdex_DexBeginOffset (buf : List Nat) : Nat :=
  (24 + vdex_GetSizeOfChecksumsSection buf) % U4MOD

/-- `vdex_DexEnd` as a byte offset from the mapping base:
`vdex_DexBegin(cursor) + dexSize` in pointer arithmetic (no wrap). -/
def vdex_DexEndPtr (buf : List Nat) : Nat :=
  vdex_DexBeginPtr buf + vdexDexSize buf

/-- `vdex_DexEndOffset`: `vdex_DexBeginOffset(cursor) + dexSize` as `u4`. -/
def vdex_DexEndOffset (buf : List Nat) : Nat :=
  (vdex_DexBeginOffset buf + vdexDexSize buf) % U4MOD

/-- `vdex_GetVerifierDepsDataOffset`: `vdex_DexBeginOffset(cursor) + dexSize`
as `u4`. -/
def vdex_GetVerifierDepsDataOffset (buf : List Nat) : Nat :=
  (vdex_DexBeginOffset buf + vdexDexSize buf) % U4MOD

/-- `vdex_GetQuickeningInfoOffset`:
`vdex_GetVerifierDepsDataOffset(cursor) + verifierDepsSize` as `u4`. -/
def vdex_GetQuickeningInfoOffset (buf : List Nat) : Nat :=
  (vdex_GetVerifierDepsDataOffset buf + vdexVerifierDepsSize buf) % U4MOD

/-- Modelled from the spec: the `fileSize` field of the `dexHeader` struct is
declared in dex.h, which is not among the provided sources. Per the spec,
"the DEX's `fileSize` field declares its own length"; in the standard DEX
header layout (`magic[8]`, `checksum u4`, `signature[20]`) `fileSize` is the
`u4` at byte offset 32 of the DEX header, read here at `off + 32`. -/
def dexFileSize (buf : List Nat) (off : Nat) : Nat := readU4 buf (off + 32)

/-- `vdex_GetNextDexFileData(cursor, offset)`. The C function takes the
cursor offset by pointer and returns a slice pointer or NULL; here it takes
the offset value and returns `none` for NULL (in which case the C leaves
`*offset` unmodified) or `some (dexBuf, newOffset)` where `dexBuf` is the
returned slice pointer (as a byte offset from the base) and `newOffset` the
updated `u4` cursor. On the first call (`*offset == 0`) there is no
boundary check; on later calls the slice must not extend past
`vdex_DexEnd`. -/
def vdex_GetNextDexFileData (buf : List Nat) (offset : Nat) : Option (Nat × Nat) :=
  if offset = 0 then
    if vdex_hasDexSection buf then
      let dexBuf := vdex_DexBeginPtr buf
      some (dexBuf, (vdex_DexBeginOffset buf + dexFileSize buf dexBuf) % U4MOD)
    else
      none
  else
    let dexBuf := offset
    let dexBufMax := dexBuf + dexFileSize buf offset
    if dexBufMax ≤ vdex_DexEndPtr buf then
      some (dexBuf, (offset + dexFileSize buf offset) % U4MOD)
    else
      none

/-- `vdex_GetLocationChecksum`: the `u4` at `sizeof(vdexHeader) + 4*fileIdx`. -/
def vdex_GetLocationChecksum (buf : List Nat) (fileIdx : Nat) : Nat :=
  readU4 buf (24 + 4 * fileIdx)

/-- Little-endian `u4` store at byte offset `off` (writes past the end of
the list are dropped, as `List.set` is the identity out of range). -/
def writeU4LE (buf : List Nat) (off v : Nat) : List Nat :=
  ((((buf.set off (v % 256)).set (off + 1) (v / 256 % 256)).set
      (off + 2) (v / 65536 % 256)).set (off + 3) (v / 16777216 % 256))

/-- `vdex_SetLocationChecksum`: `checksums[fileIdx] = value` where the
checksum table starts at `sizeof(vdexHeader)` = 24. -/
def vdex_SetLocationChecksum (buf : List Nat) (fileIdx value : Nat) : List Nat :=
  writeU4LE buf (24 + 4 * fileIdx) value

/-- The write loop of `vdex_updateChecksums`:
`for i: vdex_SetLocationChecksum(buf, i, checksums[i])`, with `i` starting
at the given index and the remaining checksum values as a list. -/
def writeChecksumsFrom : List Nat → List Nat → Nat → List Nat
  | buf, [], _ => buf
  | buf, c :: cs, i => writeChecksumsFrom (vdex_SetLocationChecksum buf i c) cs (i + 1)

/-- `vdex_updateChecksums(inVdexFileName, nCsums, checksums, pRunArgs)` after
a successful map of the input file. The result pair is (return value, final
state of the mapped buffer). `writerOk` stands for the success of the
external `outWriter_VdexFile` sink: on writer failure the function returns
false with the buffer already rewritten, exactly as in the C. An invalid
header or a checksum-count mismatch returns false before any write. -/
def vdex_updateChecksums (writerOk : Bool) (buf : List Nat) (checksums : List Nat) :
    Bool × List Nat :=
  if ¬ vdex_isValidVdex buf then (false, buf)
  else if checksums.length ≠ vdexNumberOfDexFiles buf then (false, buf)
  else
    let buf1 := writeChecksumsFrom buf checksums 0
    if writerOk then (true, buf1) else (false, buf1)

/-- The `VdexBackend` enum of vdex.h. -/
inductive VdexBackend where
  | kBackendV6
  | kBackendV10
  | kBackendMax
deriving DecidableEq

/-- The functions a backend binds for `initDepsInfoPtr` (their bodies live in
vdex_backend_v6.c / vdex_backend_v10.c, outside the provided sources; only
their identity matters here). -/
inductive DepsInitFn where
  | vdex_initDepsInfo_v6
  | vdex_initDepsInfo_v10
deriving DecidableEq

/-- Candidates for `destroyDepsInfoPtr`. -/
inductive DepsDestroyFn where
  | vdex_destroyDepsInfo_v6
  | vdex_destroyDepsInfo_v10
deriving DecidableEq

/-- Candidates for `dumpDepsInfoPtr`. -/
inductive DepsDumpFn where
  | vdex_dumpDepsInfo_v6
  | vdex_dumpDepsInfo_v10
deriving DecidableEq

/-- Candidates for `processPtr`. -/
inductive ProcessFn where
  | vdex_process_v6
  | vdex_process_v10
deriving DecidableEq

/-- The four static function pointers of vdex.c that `vdex_backendInit`
assigns. -/
structure BackendState where
  initDepsInfoPtr : DepsInitFn
  destroyDepsInfoPtr : DepsDestroyFn
  dumpDepsInfoPtr : DepsDumpFn
  processPtr : ProcessFn
deriving DecidableEq

/-- The binding `vdex_backendInit(kBackendV6)` installs. -/
def v6Backend : BackendState :=
  ⟨.vdex_initDepsInfo_v6, .vdex_destroyDepsInfo_v6, .vdex_dumpDepsInfo_v6, .vdex_process_v6⟩

/-- The binding `vdex_backendInit(kBackendV10)` installs. -/
def v10Backend : BackendState :=
  ⟨.vdex_initDepsInfo_v10, .vdex_destroyDepsInfo_v10, .vdex_dumpDepsInfo_v10, .vdex_process_v10⟩

/-- `vdex_backendInit`: sets the four pointers for v6 or v10; the default
case logs at fatal level (no binding results), modelled as `none`. -/
def vdex_backendInit : VdexBackend → Option BackendState
  | .kBackendV6 => some v6Backend
  | .kBackendV10 => some v10Backend
  | .kBackendMax => none

/-- `isspace` bytes skipped by `strtol`. -/
def isSpaceByte (b : Nat) : Bool := b == 32 || (9 ≤ b && b ≤ 13)

/-- Leading-whitespace skip of `strtol`. -/
def skipSpaces : List Nat → List Nat
  | [] => []
  | b :: bs => if isSpaceByte b then skipSpaces bs else b :: bs

/-- Decimal digit run consumed by `strtol`, accumulating the value; stops at
the first non-digit byte (in particular at a NUL terminator). -/
def digitsVal : List Nat → Int → Int
  | [], acc => acc
  | b :: bs, acc =>
    if 48 ≤ b && b ≤ 57 then digitsVal bs (acc * 10 + (b - 48 : Nat)) else acc

/-- `strtol(s, &end, 10)` on a byte string: skip whitespace, optional sign,
then a decimal digit run (overflow clamping not modelled; the 4-byte inputs
here cannot overflow `long`). The C call reads the header's NUL-terminated
`version` field; it is modelled on the 4 version bytes, which contain the
terminating NUL in every recognized version. -/
def strtol10 (bs : List Nat) : Int :=
  match skipSpaces bs with
  | 43 :: rest => digitsVal rest 0
  | 45 :: rest => - digitsVal rest 0
  | rest => digitsVal rest 0

/-- `selectVdexBackend` of vdexExtractor.c: `strtol` of the version field,
then `vdex_backendInit` for 6 or 10, else an error return. `some state`
models "pointers bound, returns true"; `none` models "returns false". -/
def selectVdexBackend (buf : List Nat) : Option BackendState :=
  let v := strtol10 (vdexVersionBytes buf)
  if v = 6 then vdex_backendInit .kBackendV6
  else if v = 10 then vdex_backendInit .kBackendV10
  else none

/-- Modelled from the spec: `sizeof(dexHeader)` comes from dex.h, which is
not among the provided sources; the standard DEX header is 112 bytes. -/
def dexHeaderSize : Nat := 112

/-- What main's per-file loop sees for one input file: either the
`utils_mapFileToRead` call fails, or it yields a mapping of `fileSz` bytes;
`processRet` is the oracle for the backend `vdex_process` result on that
file (`none` for -1, `some d` for d extracted DEX files), whose body lives
in the backend sources outside src/. -/
inductive FileInput where
  | mapFail
  | mapped (fileSz : Nat) (buf : List Nat) (processRet : Option Nat)

/-- How main's loop body ends for one file: each `skipped*` constructor is a
`continue` after a log message, `processed d` increments the counters. -/
inductive FileOutcome where
  | skippedMapFail
  | skippedTooSmall
  | skippedInvalid
  | skippedBackend
  | skippedProcess
  | processed (dexCnt : Nat)
deriving DecidableEq

/-- One iteration of main's per-file loop (vdexExtractor.c lines 201-275):
map, minimum-size check `fileSz < sizeof(vdexHeader) + sizeof(dexHeader)`,
`vdex_isValidVdex`, `selectVdexBackend`, then `vdex_process`. -/
def processFile : FileInput → FileOutcome
  | .mapFail => .skippedMapFail
  | .mapped fileSz buf processRet =>
    if fileSz < 24 + dexHeaderSize then .skippedTooSmall
    else if ¬ vdex_isValidVdex buf then .skippedInvalid
    else if (selectVdexBackend buf).isNone then .skippedBackend
    else
      match processRet with
      | none => .skippedProcess
      | some d => .processed d

/-- Main's loop over all input files: every file is handled independently
and the loop never exits early. -/
def mainOutcomes : List FileInput → List FileOutcome
  | [] => []
  | f :: fs => processFile f :: mainOutcomes fs

/-- Whether validation succeeds for a file in main's loop: the file maps,
passes the minimum-size check, and `vdex_isValidVdex` returns true. -/
def fileValidates : FileInput → Bool
  | .mapFail => false
  | .mapped fileSz buf _ => decide (24 + dexHeaderSize ≤ fileSz) && vdex_isValidVdex buf

/-- Number of input files for which validation succeeds. -/
def validatedCount (files : List FileInput) : Nat :=
  (files.filter fileValidates).length

/-- `EXIT_SUCCESS`. -/
def EXIT_SUCCESS : Nat := 0

/-- `EXIT_FAILURE`. -/
def EXIT_FAILURE : Nat := 1

/-- The exit status of main's non-checksum-rewrite path: `mainRet`
starts as `EXIT_FAILURE`, the per-file loop runs to completion on every
input list, and line 281 then sets `mainRet = EXIT_SUCCESS`
unconditionally, whatever the per-file outcomes were. -/
def mainExitCode (files : List FileInput) : Nat :=
  let _ := mainOutcomes files
  EXIT_SUCCESS

/-- Cursor value after `k` successful `vdex_GetNextDexFileData` calls
starting from cursor `off`; `none` if any call returns NULL. -/
def iterOffsets (buf : List Nat) : Nat → Nat → Option Nat
  | 0, off => some off
  | k + 1, off =>
    match vdex_GetNextDexFileData buf off with
    | none => none
    | some (_, off1) => iterOffsets buf k off1

/-- `tilesFrom buf off sizes`: starting at `off`, each successive DEX header
declares exactly the next size of `sizes` as its `fileSize` (the embedded
DEX files tile the region). -/
def tilesFrom (buf : List Nat) : Nat → List Nat → Bool
  | _, [] => true
  | off, s :: ss => (dexFileSize buf off == s) && tilesFrom buf (off + s) ss

/-- A container with `numberOfDexFiles = 0`, `dexSize = 1`, whose single
DEX slice begins at 24 and claims `fileSize = 100`, far past the end of the
1-byte DEX section. -/
def c1buf : List Nat := ((List.replicate 60 0).set 12 1).set 56 100

/-- A minimal buffer whose first 8 bytes are `vdex` `006\0`. -/
def okBuf : List Nat := [118, 100, 101, 120, 48, 48, 54, 0]

/-- A well-formed-for-iteration container: `numberOfDexFiles = 1`,
`dexSize = 40`, one 40-byte DEX at offset 28 declaring `fileSize = 40`. -/
def c4buf : List Nat := (((List.replicate 64 0).set 8 1).set 12 40).set 60 40

/-- A 32-byte valid VDEX: magic `vdex`, version `006\0`,
`numberOfDexFiles = 2`, all sizes 0, original checksums 10 and 11. -/
def c6buf : List Nat :=
  [118, 100, 101, 120, 48, 48, 54, 0, 2, 0, 0, 0, 0, 0, 0, 0,
   0, 0, 0, 0, 0, 0, 0, 0, 10, 0, 0, 0, 11, 0, 0, 0]

/-! ## Helper lemmas -/

/-- `List.set` seen through `byteAt`. -/
theorem byteAt_set (buf : List Nat) (i j v : Nat) :
    byteAt (buf.set i v) j = if i = j ∧ j < buf.length then v else byteAt buf j := by
  simp only [byteAt, List.getD_eq_getElem?_getD, List.getElem?_set]
  by_cases h : i = j
  · subst h
    by_cases hl : i < buf.length
    · simp [hl]
    · simp [hl, List.getElem?_eq_none (Nat.le_of_not_lt hl)]
  · simp [h]

/-- `writeU4LE` does not change the buffer length. -/
theorem length_writeU4LE (buf : List Nat) (off v : Nat) :
    (writeU4LE buf off v).length = buf.length := by
  simp [writeU4LE]

/-- Byte-level characterization of `writeU4LE` for an in-range store. -/
theorem byteAt_writeU4LE (buf : List Nat) (off v j : Nat) (h : off + 4 ≤ buf.length) :
    byteAt (writeU4LE buf off v) j =
      if j = off then v % 256
      else if j = off + 1 then v / 256 % 256
      else if j = off + 2 then v / 65536 % 256
      else if j = off + 3 then v / 16777216 % 256
      else byteAt buf j := by
  unfold writeU4LE
  rw [byteAt_set, byteAt_set, byteAt_set, byteAt_set]
  simp only [List.length_set]
  split_ifs <;> omega

/-! ## Claim theorems -/

/-- Claim C2: `vdex_isValidVdex(buf)` returns true if and only if the first
four bytes of `buf` are the ASCII literal `vdex` (118, 100, 101, 120) and
the following four bytes are `006\0` (48, 48, 54, 0) or `010\0`
(48, 49, 48, 0); any other magic or version is rejected. -/
theorem vdex_isValidVdex_iff (buf : List Nat) :
    vdex_isValidVdex buf = true ↔
      ((byteAt buf 0 = 118 ∧ byteAt buf 1 = 100 ∧ byteAt buf 2 = 101 ∧ byteAt buf 3 = 120) ∧
        ((byteAt buf 4 = 48 ∧ byteAt buf 5 = 48 ∧ byteAt buf 6 = 54 ∧ byteAt buf 7 = 0) ∨
          (byteAt buf 4 = 48 ∧ byteAt buf 5 = 49 ∧ byteAt buf 6 = 48 ∧ byteAt buf 7 = 0))) := by
  simp only [vdex_isValidVdex, vdex_isMagicValid, vdex_isVersionValid, vdexMagicBytes,
    vdexVersionBytes, kVdexMagic, kVdexMagicVersions, kVdexVersion006, kVdexVersion010,
    List.any_cons, List.any_nil, Bool.and_eq_true, Bool.or_eq_true, beq_iff_eq,
    List.cons.injEq, and_true, or_false]
  tauto

/-- Witness for C2: a concrete buffer with magic `vdex` and version `006\0`
is accepted. -/
theorem vdex_isValidVdex_iff_witness : vdex_isValidVdex okBuf = true :=
  (vdex_isValidVdex_iff okBuf).mpr (by decide)

/-- Claim C3: the section layout equations of the container: the DEX section
begins at `24 + 4*numberOfDexFiles`, the verifier-deps section at the DEX
section begin plus `dexSize`, and the quickening-info section at the
verifier-deps offset plus `verifierDepsSize` (each computed as `u4`). -/
theorem vdex_sectionOffsets (buf : List Nat) :
    vdex_DexBeginOffset buf = (24 + 4 * vdexNumberOfDexFiles buf) % U4MOD ∧
    vdex_GetVerifierDepsDataOffset buf = (vdex_DexBeginOffset buf + vdexDexSize buf) % U4MOD ∧
    vdex_GetQuickeningInfoOffset buf =
      (vdex_GetVerifierDepsDataOffset buf + vdexVerifierDepsSize buf) % U4MOD := by
  refine ⟨?_, rfl, rfl⟩
  unfold vdex_DexBeginOffset vdex_GetSizeOfChecksumsSection U4MOD
  omega

/-- Claim C9: the results of `vdex_isMagicValid`, `vdex_isVersionValid` and
`vdex_isValidVdex` depend only on the first 8 bytes of the buffer. -/
theorem vdex_valid_dependsOnFirst8 (buf1 buf2 : List Nat)
    (h : ∀ i, i < 8 → byteAt buf1 i = byteAt buf2 i) :
    vdex_isMagicValid buf1 = vdex_isMagicValid buf2 ∧
    vdex_isVersionValid buf1 = vdex_isVersionValid buf2 ∧
    vdex_isValidVdex buf1 = vdex_isValidVdex buf2 := by
  have hm : vdexMagicBytes buf1 = vdexMagicBytes buf2 := by
    simp [vdexMagicBytes, h 0 (by omega), h 1 (by omega), h 2 (by omega), h 3 (by omega)]
  have hv : vdexVersionBytes buf1 = vdexVersionBytes buf2 := by
    simp [vdexVersionBytes, h 4 (by omega), h 5 (by omega), h 6 (by omega), h 7 (by omega)]
  refine ⟨?_, ?_, ?_⟩ <;>
    simp [vdex_isMagicValid, vdex_isVersionValid, vdex_isValidVdex, hm, hv]

/-- Witness for C9: two buffers agreeing on bytes 0..7 but differing at
byte 8 validate identically. -/
theorem vdex_valid_dependsOnFirst8_witness :
    (∀ i, i < 8 → byteAt [118, 100, 101, 120, 48, 48, 54, 0, 5] i =
        byteAt [118, 100, 101, 120, 48, 48, 54, 0, 7] i) ∧
    vdex_isValidVdex [118, 100, 101, 120, 48, 48, 54, 0, 5] =
      vdex_isValidVdex [118, 100, 101, 120, 48, 48, 54, 0, 7] :=
  ⟨by decide,
    (vdex_valid_dependsOnFirst8 [118, 100, 101, 120, 48, 48, 54, 0, 5]
      [118, 100, 101, 120, 48, 48, 54, 0, 7] (by decide)).2.2⟩

/-- Claim C10: when the header's `dexSize` is 0 there is no DEX section, so
the first call to `vdex_GetNextDexFileData` (cursor 0) returns NULL (and the
C leaves the caller's offset untouched at 0). -/
theorem vdex_GetNextDexFileData_noDexSection (buf : List Nat)
    (h : vdexDexSize buf = 0) :
    vdex_GetNextDexFileData buf 0 = none := by
  simp [vdex_GetNextDexFileData, vdex_hasDexSection, h]

/-- Witness for C10: the all-out-of-range buffer has `dexSize = 0` and the
first call yields no slice. -/
theorem vdex_GetNextDexFileData_noDex_witness :
    vdexDexSize ([] : List Nat) = 0 ∧ vdex_GetNextDexFileData [] 0 = none :=
  ⟨by decide, vdex_GetNextDexFileData_noDexSection [] (by decide)⟩

/-- Counterexample to claim C1 as stated: on the first call (cursor 0) no
boundary check is performed. In `c1buf` the DEX section is a single byte
(`vdex_DexEnd` at 25) but the first DEX header claims `fileSize = 100`, so
the slice `[24, 124)` overruns the boundary; the call still yields it
instead of returning NULL. -/
theorem vdex_GetNextDexFileData_firstCall_overrun :
    vdex_DexEndPtr c1buf < vdex_DexBeginPtr c1buf + dexFileSize c1buf (vdex_DexBeginPtr c1buf) ∧
    vdex_GetNextDexFileData c1buf 0 = some (24, 124) := by
  constructor
  · decide
  · decide

/-- Claim C1 (amended): on every call with a nonzero cursor, a DEX slice
that would extend past `vdex_DexEnd(buf)` makes the call return NULL; the
first call (cursor 0) performs no such check. -/
theorem vdex_GetNextDexFileData_overrun_nonfirst (buf : List Nat) (offset : Nat)
    (h0 : offset ≠ 0) (hover : vdex_DexEndPtr buf < offset + dexFileSize buf offset) :
    vdex_GetNextDexFileData buf offset = none := by
  unfold vdex_GetNextDexFileData
  rw [if_neg h0, if_neg (by omega)]

/-- Witness for the amended C1: a call at cursor 30 of `c1buf` (past the
1-byte DEX section, slice end 30 > boundary 25) returns NULL. -/
theorem vdex_GetNextDexFileData_overrun_witness :
    (30 : Nat) ≠ 0 ∧ vdex_DexEndPtr c1buf < 30 + dexFileSize c1buf 30 ∧
    vdex_GetNextDexFileData c1buf 30 = none :=
  ⟨by decide, by decide,
    vdex_GetNextDexFileData_overrun_nonfirst c1buf 30 (by decide) (by decide)⟩

/-- The verifier-deps offset is the DEX-end boundary whenever the latter
fits in a `u4`. -/
theorem vdex_depsOffset_eq_dexEndPtr (buf : List Nat) (hlt : vdex_DexEndPtr buf < U4MOD) :
    vdex_GetVerifierDepsDataOffset buf = vdex_DexEndPtr buf := by
  simp only [vdex_GetVerifierDepsDataOffset, vdex_DexBeginOffset, vdex_DexEndPtr,
    vdex_DexBeginPtr, U4MOD] at hlt ⊢
  omega

/-- If the DEX headers from cursor `o` declare exactly the sizes `ss` and
those slices all fit below the DEX-end boundary, then `ss.length` calls all
succeed and leave the cursor at the end of the last slice. -/
theorem iterOffsets_tiles (buf : List Nat) (ss : List Nat) :
    ∀ o, o ≠ 0 → tilesFrom buf o ss = true →
      o + ss.sum ≤ vdex_DexEndPtr buf → vdex_DexEndPtr buf < U4MOD →
      iterOffsets buf ss.length o = some (o + ss.sum) := by
  induction ss with
  | nil =>
    intro o _ _ _ _
    simp [iterOffsets]
  | cons s ss ih =>
    intro o h0 htiles hle hlt
    rw [List.sum_cons] at hle
    have hts : dexFileSize buf o = s ∧ tilesFrom buf (o + s) ss = true := by
      simpa [tilesFrom] using htiles
    have hstep : vdex_GetNextDexFileData buf o =
        some (o, (o + dexFileSize buf o) % U4MOD) := by
      simp only [vdex_GetNextDexFileData, if_neg h0]
      rw [if_pos (by rw [hts.1]; omega)]
    have hmod : (o + dexFileSize buf o) % U4MOD = o + s := by
      rw [hts.1]
      exact Nat.mod_eq_of_lt (by omega)
    have hrec := ih (o + s) (by omega) hts.2 (by omega) hlt
    show iterOffsets buf (ss.length + 1) o = some (o + (s :: ss).sum)
    rw [List.sum_cons]
    simp only [iterOffsets, hstep, hmod]
    rw [hrec]
    congr 1
    omega

/-- Claim C4: every slice yielded by `vdex_GetNextDexFileData` at a nonzero
cursor begins at the cursor (i.e. where the previous slice ended) and the
cursor advances by exactly the slice's declared `fileSize` (as `u4`); and
for a well-formed container — the DEX headers tile the region up to
`vdex_DexEnd`, which fits a `u4`, with a nonempty DEX section — iterating
from cursor 0 succeeds and the last yielded slice ends exactly at the
verifier-deps section offset. -/
theorem vdex_dexIteration_contiguous (buf : List Nat) (ss : List Nat)
    (htiles : tilesFrom buf (vdex_DexBeginPtr buf) ss = true)
    (hsum : vdex_DexBeginPtr buf + ss.sum = vdex_DexEndPtr buf)
    (hlt : vdex_DexEndPtr buf < U4MOD)
    (hdex : vdex_hasDexSection buf = true) :
    (∀ o p o1, o ≠ 0 → vdex_GetNextDexFileData buf o = some (p, o1) →
        p = o ∧ o1 = (p + dexFileSize buf p) % U4MOD) ∧
    iterOffsets buf ss.length 0 = some (vdex_GetVerifierDepsDataOffset buf) := by
  constructor
  · intro o p o1 h0 hcall
    simp only [vdex_GetNextDexFileData, if_neg h0] at hcall
    by_cases hb : o + dexFileSize buf o ≤ vdex_DexEndPtr buf
    · rw [if_pos hb] at hcall
      simp only [Option.some.injEq, Prod.mk.injEq] at hcall
      obtain ⟨h1, h2⟩ := hcall
      subst h1
      exact ⟨rfl, h2.symm⟩
    · rw [if_neg hb] at hcall
      exact Option.noConfusion hcall
  · cases ss with
    | nil =>
      exfalso
      have hz : vdexDexSize buf = 0 := by
        simp only [List.sum_nil, vdex_DexEndPtr] at hsum
        omega
      simp [vdex_hasDexSection, hz] at hdex
    | cons s ss2 =>
      have hts : dexFileSize buf (vdex_DexBeginPtr buf) = s ∧
          tilesFrom buf (vdex_DexBeginPtr buf + s) ss2 = true := by
        simpa [tilesFrom] using htiles
      rw [List.sum_cons] at hsum
      have hstep : vdex_GetNextDexFileData buf 0 =
          some (vdex_DexBeginPtr buf,
            (vdex_DexBeginOffset buf + dexFileSize buf (vdex_DexBeginPtr buf)) % U4MOD) := by
        simp only [vdex_GetNextDexFileData, if_pos rfl]
        rw [if_pos hdex]
        simp
      have hbo : vdex_DexBeginOffset buf = vdex_DexBeginPtr buf := by
        simp only [vdex_DexBeginOffset, vdex_DexBeginPtr]
        have : vdex_DexBeginPtr buf < U4MOD := by
          simp only [vdex_DexEndPtr] at hlt
          simp only [vdex_DexBeginPtr] at hlt ⊢
          omega
        simpa only [vdex_DexBeginPtr] using Nat.mod_eq_of_lt this
      have hmod : (vdex_DexBeginOffset buf + dexFileSize buf (vdex_DexBeginPtr buf)) % U4MOD =
          vdex_DexBeginPtr buf + s := by
        rw [hbo, hts.1]
        have : vdex_DexBeginPtr buf + s ≤ vdex_DexEndPtr buf := by omega
        exact Nat.mod_eq_of_lt (by omega)
      show iterOffsets buf (ss2.length + 1) 0 = some (vdex_GetVerifierDepsDataOffset buf)
      simp only [iterOffsets, hstep, hmod]
      rw [iterOffsets_tiles buf ss2 (vdex_DexBeginPtr buf + s)
        (by simp only [vdex_DexBeginPtr]; omega) hts.2 (by omega) hlt]
      rw [vdex_depsOffset_eq_dexEndPtr buf hlt]
      congr 1
      omega

/-- Witness for C4: in `c4buf` (one DEX of size 40 at offset 28, boundary
68), the single iteration step lands exactly on the verifier-deps offset. -/
theorem vdex_dexIteration_contiguous_witness :
    tilesFrom c4buf (vdex_DexBeginPtr c4buf) [40] = true ∧
    vdex_DexBeginPtr c4buf + [40].sum = vdex_DexEndPtr c4buf ∧
    vdex_DexEndPtr c4buf < U4MOD ∧
    vdex_hasDexSection c4buf = true ∧
    iterOffsets c4buf 1 0 = some (vdex_GetVerifierDepsDataOffset c4buf) :=
  ⟨by decide, by decide, by decide, by decide,
    (vdex_dexIteration_contiguous c4buf [40] (by decide) (by decide) (by decide)
      (by decide)).2⟩

/-- Claim C5: `selectVdexBackend` parses the 4-byte version field as ASCII
decimal; parsed value 6 binds the v6 function pointers and succeeds, 10
binds the v10 pointers and succeeds, every other value fails; and main's
loop always proceeds to the next file after handling the current one. -/
theorem selectVdexBackend_dispatch (buf : List Nat) (f : FileInput)
    (rest : List FileInput) :
    (strtol10 (vdexVersionBytes buf) = 6 → selectVdexBackend buf = some v6Backend) ∧
    (strtol10 (vdexVersionBytes buf) = 10 → selectVdexBackend buf = some v10Backend) ∧
    (strtol10 (vdexVersionBytes buf) ≠ 6 → strtol10 (vdexVersionBytes buf) ≠ 10 →
      selectVdexBackend buf = none) ∧
    mainOutcomes (f :: rest) = processFile f :: mainOutcomes rest := by
  refine ⟨?_, ?_, ?_, rfl⟩
  · intro h
    simp [selectVdexBackend, vdex_backendInit, h]
  · intro h
    simp [selectVdexBackend, vdex_backendInit, h]
  · intro h6 h10
    simp [selectVdexBackend, h6, h10]

/-- Witness for C5: version `006\0` parses to 6 and selects the v6
backend. -/
theorem selectVdexBackend_dispatch_witness :
    strtol10 (vdexVersionBytes okBuf) = 6 ∧ selectVdexBackend okBuf = some v6Backend :=
  ⟨by decide, (selectVdexBackend_dispatch okBuf FileInput.mapFail []).1 (by decide)⟩

/-- Claim C6: on a valid VDEX with `numberOfDexFiles = 2` (and a buffer
holding at least the header and checksum table), a successful
`vdex_updateChecksums` with sidecar values `0x11111111` and `22` returns
true and yields a buffer identical to the input at every byte except
offsets `[24, 32)`, which become the little-endian bytes
`11 11 11 11 16 00 00 00` (checksum `i` stored at `24 + 4*i`). -/
theorem vdex_updateChecksums_twoFiles (buf : List Nat)
    (hv : vdex_isValidVdex buf = true)
    (hn : vdexNumberOfDexFiles buf = 2)
    (hlen : 32 ≤ buf.length) :
    (vdex_updateChecksums true buf [286331153, 22]).1 = true ∧
    ((vdex_updateChecksums true buf [286331153, 22]).2).length = buf.length ∧
    (∀ j, 24 ≤ j → j < 32 →
      byteAt (vdex_updateChecksums true buf [286331153, 22]).2 j =
        [17, 17, 17, 17, 22, 0, 0, 0].getD (j - 24) 0) ∧
    (∀ j, j < 24 ∨ 32 ≤ j →
      byteAt (vdex_updateChecksums true buf [286331153, 22]).2 j = byteAt buf j) := by
  have hupd : vdex_updateChecksums true buf [286331153, 22] =
      (true, writeU4LE (writeU4LE buf 24 286331153) 28 22) := by
    unfold vdex_updateChecksums
    rw [if_neg (by simp [hv]), if_neg (by simp [hn])]
    rfl
  rw [hupd]
  refine ⟨rfl, by simp [length_writeU4LE], ?_, ?_⟩
  · intro j h1 h2
    rw [byteAt_writeU4LE _ _ _ _ (by rw [length_writeU4LE]; omega),
      byteAt_writeU4LE _ _ _ _ (by omega)]
    interval_cases j <;> simp
  · intro j hj
    rw [byteAt_writeU4LE _ _ _ _ (by rw [length_writeU4LE]; omega),
      byteAt_writeU4LE _ _ _ _ (by omega)]
    split_ifs <;> omega

/-- Witness for C6: on the concrete container `c6buf` the rewrite succeeds
and byte 28 becomes 22. -/
theorem vdex_updateChecksums_twoFiles_witness :
    vdex_isValidVdex c6buf = true ∧ vdexNumberOfDexFiles c6buf = 2 ∧ 32 ≤ c6buf.length ∧
    byteAt (vdex_updateChecksums true c6buf [286331153, 22]).2 28 = 22 :=
  ⟨by decide, by decide, by decide,
    (vdex_updateChecksums_twoFiles c6buf (by decide) (by decide) (by decide)).2.2.1 28
      (by decide) (by decide)⟩

/-- Claim C7: if the number of checksums loaded from the sidecar differs
from the header's `numberOfDexFiles`, `vdex_updateChecksums` returns false
with the mapped buffer untouched (no checksum is written on this path),
returning to the caller rather than aborting. -/
theorem vdex_updateChecksums_countMismatch (writerOk : Bool) (buf cs : List Nat)
    (hv : vdex_isValidVdex buf = true)
    (hne : cs.length ≠ vdexNumberOfDexFiles buf) :
    vdex_updateChecksums writerOk buf cs = (false, buf) := by
  unfold vdex_updateChecksums
  rw [if_neg (by simp [hv]), if_pos hne]

/-- Witness for C7: one sidecar checksum against a two-DEX container fails
and leaves the buffer as it was. -/
theorem vdex_updateChecksums_countMismatch_witness :
    vdex_isValidVdex c6buf = true ∧ ([1] : List Nat).length ≠ vdexNumberOfDexFiles c6buf ∧
    vdex_updateChecksums true c6buf [1] = (false, c6buf) :=
  ⟨by decide, by decide,
    vdex_updateChecksums_countMismatch true c6buf [1] (by decide) (by decide)⟩

/-- Counterexample to claim C8 as stated: a run whose single input file
fails validation (136 mapped zero bytes: size check passes, magic check
fails) validates zero files, yet main still exits with `EXIT_SUCCESS`,
refuting "exit status is success only if validation succeeds for at least
one input file". -/
theorem main_exitSuccess_without_validation :
    validatedCount [FileInput.mapped 136 (List.replicate 136 0) none] = 0 ∧
    mainExitCode [FileInput.mapped 136 (List.replicate 136 0) none] = EXIT_SUCCESS := by
  constructor
  · decide
  · rfl

/-- Claim C8 (amended): a per-file failure only logs and proceeds — the
loop handles each file independently of the rest, and a mapped file of
sufficient size with an invalid header is skipped with outcome
`skippedInvalid` — and the exit status of the processing path is
`EXIT_SUCCESS` whenever the loop completes, regardless of per-file
outcomes (even when no file validates). -/
theorem main_perFile_skip_and_exitSuccess (files : List FileInput) (f : FileInput)
    (rest : List FileInput) :
    mainOutcomes (f :: rest) = processFile f :: mainOutcomes rest ∧
    (∀ fileSz buf processRet, 136 ≤ fileSz → vdex_isValidVdex buf = false →
      processFile (FileInput.mapped fileSz buf processRet) = FileOutcome.skippedInvalid) ∧
    mainExitCode files = EXIT_SUCCESS := by
  refine ⟨rfl, ?_, rfl⟩
  intro fileSz buf processRet h1 h2
  show (if fileSz < 24 + dexHeaderSize then FileOutcome.skippedTooSmall
    else if ¬ vdex_isValidVdex buf = true then FileOutcome.skippedInvalid
    else if (selectVdexBackend buf).isNone then FileOutcome.skippedBackend
    else match processRet with
      | none => FileOutcome.skippedProcess
      | some d => FileOutcome.processed d) = FileOutcome.skippedInvalid
  rw [if_neg (by unfold dexHeaderSize; omega), if_pos (by simp [h2])]

/-- Witness for the amended C8: the invalid all-zero file is skipped as
`skippedInvalid`. -/
theorem main_perFile_skip_witness :
    (136 : Nat) ≤ 136 ∧ vdex_isValidVdex (List.replicate 136 0) = false ∧
    processFile (FileInput.mapped 136 (List.replicate 136 0) none) =
      FileOutcome.skippedInvalid :=
  ⟨le_refl 136, by decide,
    (main_perFile_skip_and_exitSuccess [] FileInput.mapFail []).2.1 136
      (List.replicate 136 0) none (le_refl 136) (by decide)⟩
